import Mathlib

/-!
Shallow embedding of `src/LangChain/main.py` (the `EmailGenerationSystem`
LangGraph pipeline) and verification of its specification claims.

The Python `EmailState` TypedDict becomes a Lean structure; the
`accuracy_score` dict (filled from a parsed JSON object, possibly missing
keys) becomes a structure of `Option` fields, where `none` models an absent
key and `dict.get(k, d)` becomes `Option.getD`.  The two LLM calls, the two
`datetime.now()` reads and the JSON parse of the evaluation response are
external effects; they are modelled by an `Oracle` giving the n-th response
of each kind, with `Except` for transport errors and `EvalJson` for the
`json.loads` outcome.  The LangGraph wiring of `_build_graph` becomes an
explicit step function on a node/state pair, and `graph.invoke` becomes a
fuel-indexed driver loop recording the trace of visited nodes.
-/

/-- The `accuracy_score` dict: result of `json.loads` on the evaluation
response (or the hand-built fallback).  `none` models an absent key. -/
structure AccuracyScore where
  overall_score : Option Int := none
  recommendation : Option String := none
  feedback : Option String := none
  parsing_accuracy : Option Int := none
  format_compliance : Option Int := none
  required_info : Option Int := none
  format_completeness : Option Int := none
  deriving Repr, DecidableEq

/-- The `EmailState` TypedDict of `main.py`.  `parsed_data : Dict[str, str]`
is an association list so that its key set is observable. -/
structure EmailState where
  user_input : String
  parsed_data : List (String × String)
  generated_email : String
  accuracy_score : AccuracyScore
  send_status : String
  result_summary : String
  processing_time : String
  current_date : String
  deriving Repr, DecidableEq

/-- Python `d[k]` on a string dict: `some` the value, `none` = `KeyError`. -/
def dict_get (d : List (String × String)) (k : String) : Option String :=
  (d.find? (fun p => p.fst == k)).map Prod.snd

/-- Python `repr` of a `Dict[str, str]`, as interpolated by an f-string. -/
def py_dict_repr (d : List (String × String)) : String :=
  "\x7b" ++
    String.intercalate ", "
      (d.map (fun p => "\x27" ++ p.fst ++ "\x27: \x27" ++ p.snd ++ "\x27")) ++
  "\x7d"

/-- f-string rendering of a sub-score read with a default of N/A. -/
def py_get_int_repr (o : Option Int) : String :=
  match o with
  | some n => toString n
  | none => "N/A"

/-- The constant dict built by `process_input` (the parsing stub). -/
def sample_parsed_data : List (String × String) :=
  [("vehicle_model", "추출된차종"),
   ("software_version", "추출된버전"),
   ("control_board", "추출된제어보드"),
   ("manager_name", "김테스트"),
   ("distributor_name", "박배포"),
   ("test_result", "All Pass")]

/-- Stage `process_input`: ignores `user_input` beyond reading it, installs the
constant `parsed_data`, and stamps `current_date` / `processing_time` from
the two `datetime.now()` reads (passed in as `now_date`, `now_time`). -/
def process_input (now_date now_time : String) (state : EmailState) :
    EmailState :=
  { state with
    parsed_data := sample_parsed_data
    current_date := now_date
    processing_time := now_time }

/-- The data that `generate_email` feeds into `EMAIL_GENERATION_PROMPT`:
`user_input`, `current_date` and the six `parsed_data` fields — nothing
else of the state reaches the prompt. -/
structure GenPromptInputs where
  user_input : String
  current_date : String
  parsed_data : List (String × String)
  deriving Repr, DecidableEq

/-- The prompt-parameter extraction performed by `generate_email`. -/
def generation_prompt_inputs (state : EmailState) : GenPromptInputs :=
  { user_input := state.user_input
    current_date := state.current_date
    parsed_data := state.parsed_data }

/-- Stage `generate_email`, given the LLM response content: stores it in
`generated_email`. -/
def generate_email (resp : String) (state : EmailState) : EmailState :=
  { state with generated_email := resp }

/-- The fallback evaluation installed by `check_accuracy` when
`json.loads` raises `JSONDecodeError`. -/
def parse_failure_score : AccuracyScore :=
  { overall_score := some 0
    recommendation := some "REVISE"
    feedback := some "응답 파싱 실패" }

/-- Outcome of `json.loads` on the evaluation response: a raised
`JSONDecodeError`, a JSON object (Python dict, `none` fields = missing
keys), or a valid JSON value that is not an object (number, string,
list, ...). -/
inductive EvalJson where
  | jsonError
  | obj (a : AccuracyScore)
  | nonObj
  deriving Repr, DecidableEq

/-- Stage `check_accuracy`, given the `json.loads` outcome on the LLM
response.  The try block stores the parsed value and then logs
`accuracy_data['overall_score']`, and the except clause catches only
`JSONDecodeError`.  So: a decode error installs the fallback; a JSON
object with an `overall_score` key is stored and the stage succeeds; a
JSON object without that key raises an uncaught `KeyError` from the
logging f-string, and a non-object raises an uncaught `TypeError` when
subscripted — both abort the run (`Except.error`). -/
def check_accuracy (parsed : EvalJson) (state : EmailState) :
    Except String EmailState :=
  match parsed with
  | .jsonError => .ok { state with accuracy_score := parse_failure_score }
  | .obj a =>
      match a.overall_score with
      | some _ => .ok { state with accuracy_score := a }
      | none => .error "KeyError: overall_score"
  | .nonObj => .error "TypeError: not a dict"

/-- Router `should_send_email`: the decision function on the conditional edge. -/
def should_send_email (state : EmailState) : String :=
  let score := state.accuracy_score.overall_score.getD 0
  let recommendation := state.accuracy_score.recommendation.getD "REVISE"
  if score == 100 && recommendation == "APPROVE" then "send" else "revise"

/-- Stage `revise_email`: reads the feedback value (defaulting to the
empty string), logs it, and returns the state unchanged. -/
def revise_email (state : EmailState) : EmailState :=
  state

/-- Stage `simulate_email_send`: sets the simulated-completion marker. -/
def simulate_email_send (state : EmailState) : EmailState :=
  { state with send_status := "전송 완료 (시뮬레이션)" }

/-- The separator line of the plain-text report (39 box-drawing chars). -/
def summary_rule : String :=
  "═══════════════════════════════════════"

/-- The f-string body of `output_result`, given the (present)
`overall_score`. -/
def result_summary_text (score : Int) (state : EmailState) : String :=
  "\n        📧 이메일 생성 완료 보고서\n        \n        "
  ++ summary_rule ++ "\n"
  ++ "        📝 처리 결과\n"
  ++ "        - 상태: " ++ state.send_status ++ "\n"
  ++ "        - 정확도: " ++ toString score ++ "/100\n"
  ++ "        - 처리 시간: " ++ state.processing_time ++ "\n        \n"
  ++ "        📋 생성된 이메일 정보\n"
  ++ "        - 입력: " ++ state.user_input ++ "\n"
  ++ "        - 파싱된 데이터: " ++ py_dict_repr state.parsed_data
  ++ "\n        \n"
  ++ "        📊 품질 평가\n"
  ++ "        - 파싱 정확성: "
  ++ py_get_int_repr state.accuracy_score.parsing_accuracy ++ "/40\n"
  ++ "        - 양식 준수: "
  ++ py_get_int_repr state.accuracy_score.format_compliance ++ "/30\n"
  ++ "        - 필수 정보: "
  ++ py_get_int_repr state.accuracy_score.required_info ++ "/20\n"
  ++ "        - 형식 완성도: "
  ++ py_get_int_repr state.accuracy_score.format_completeness
  ++ "/10\n        \n"
  ++ "        💡 피드백: " ++ state.accuracy_score.feedback.getD "없음"
  ++ "\n        " ++ summary_rule ++ "\n        "

/-- Stage `output_result`: renders the plain-text report into
`result_summary`.  The overall score is read by direct dict access, so a
missing key is a `KeyError` (`none`). -/
def output_result (state : EmailState) : Option EmailState :=
  match state.accuracy_score.overall_score with
  | none => none
  | some score =>
      some { state with result_summary := result_summary_text score state }

/-- Everything of the HTML f-string of `update_web_page` before the embedded
render timestamp.  Direct dict accesses (`overall_score` and the three
`parsed_data` keys) are `KeyError` (`none`) when absent.  Literal braces
of the CSS are `\x7b`/`\x7d`. -/
def html_before_timestamp (state : EmailState) : Option String :=
  match state.accuracy_score.overall_score,
      dict_get state.parsed_data "vehicle_model",
      dict_get state.parsed_data "software_version",
      dict_get state.parsed_data "control_board" with
  | some score, some vehicle_model, some software_version,
      some control_board =>
    some (
  "\n        <!DOCTYPE html>\n        <html lang=\"ko\">\n        <head>\n"
  ++ "            <meta charset=\"UTF-8\">\n"
  ++ "            <meta name=\"viewport\" content=\"width=device-width, "
  ++ "initial-scale=1.0\">\n"
  ++ "            <title>이메일 생성 결과</title>\n"
  ++ "            <style>\n"
  ++ "                body \x7b font-family: Arial, sans-serif; "
  ++ "margin: 20px; background-color: #f5f5f5; \x7d\n"
  ++ "                .container \x7b max-width: 800px; margin: 0 auto; "
  ++ "background: white; padding: 20px; border-radius: 8px; "
  ++ "box-shadow: 0 2px 10px rgba(0,0,0,0.1); \x7d\n"
  ++ "                .header \x7b background: #007bff; color: white; "
  ++ "padding: 15px; border-radius: 5px; margin-bottom: 20px; \x7d\n"
  ++ "                .section \x7b margin-bottom: 20px; padding: 15px; "
  ++ "border: 1px solid #ddd; border-radius: 5px; \x7d\n"
  ++ "                .score \x7b font-size: 24px; font-weight: bold; "
  ++ "color: #28a745; \x7d\n"
  ++ "                .email-content \x7b background: #f8f9fa; "
  ++ "padding: 15px; border-radius: 5px; white-space: pre-wrap; \x7d\n"
  ++ "                .timestamp \x7b color: #666; font-size: 12px; \x7d\n"
  ++ "            </style>\n        </head>\n        <body>\n"
  ++ "            <div class=\"container\">\n"
  ++ "                <div class=\"header\">\n"
  ++ "                    <h1>🚗 자동차 테스트 이메일 생성 시스템</h1>\n"
  ++ "                    <p>생성 시간: " ++ state.processing_time
  ++ "</p>\n                </div>\n                \n"
  ++ "                <div class=\"section\">\n"
  ++ "                    <h2>📝 처리 결과</h2>\n"
  ++ "                    <p><strong>상태:</strong> " ++ state.send_status
  ++ "</p>\n"
  ++ "                    <p><strong>정확도:</strong> "
  ++ "<span class=\"score\">" ++ toString score ++ "/100</span></p>\n"
  ++ "                </div>\n                \n"
  ++ "                <div class=\"section\">\n"
  ++ "                    <h2>📋 입력 정보</h2>\n"
  ++ "                    <p><strong>사용자 입력:</strong> "
  ++ state.user_input ++ "</p>\n"
  ++ "                    <p><strong>차종:</strong> " ++ vehicle_model
  ++ "</p>\n"
  ++ "                    <p><strong>소프트웨어 버전:</strong> "
  ++ software_version ++ "</p>\n"
  ++ "                    <p><strong>제어보드:</strong> " ++ control_board
  ++ "</p>\n"
  ++ "                </div>\n                \n"
  ++ "                <div class=\"section\">\n"
  ++ "                    <h2>📧 생성된 이메일</h2>\n"
  ++ "                    <div class=\"email-content\">"
  ++ state.generated_email ++ "</div>\n"
  ++ "                </div>\n                \n"
  ++ "                <div class=\"section\">\n"
  ++ "                    <h2>📊 품질 평가</h2>\n"
  ++ "                    <p><strong>파싱 정확성:</strong> "
  ++ py_get_int_repr state.accuracy_score.parsing_accuracy ++ "/40</p>\n"
  ++ "                    <p><strong>양식 준수:</strong> "
  ++ py_get_int_repr state.accuracy_score.format_compliance ++ "/30</p>\n"
  ++ "                    <p><strong>필수 정보:</strong> "
  ++ py_get_int_repr state.accuracy_score.required_info ++ "/20</p>\n"
  ++ "                    <p><strong>형식 완성도:</strong> "
  ++ py_get_int_repr state.accuracy_score.format_completeness
  ++ "/10</p>\n"
  ++ "                    <p><strong>피드백:</strong> "
  ++ state.accuracy_score.feedback.getD "없음" ++ "</p>\n"
  ++ "                </div>\n                \n"
  ++ "                <div class=\"timestamp\">\n"
  ++ "                    마지막 업데이트: ")
  | _, _, _, _ => none

/-- Everything of the HTML f-string after the render timestamp. -/
def html_after_timestamp : String :=
  "\n                </div>\n            </div>\n        </body>\n"
  ++ "        </html>\n        "

/-- The full HTML document written by `update_web_page`, with the
`datetime.now()` render timestamp passed in. -/
def update_web_page_html (state : EmailState) (render_time : String) :
    Option String :=
  (html_before_timestamp state).map
    (fun b => b ++ render_time ++ html_after_timestamp)

/-- Stage `update_web_page`: renders and writes the HTML report (the write is the
external artifact; the state is returned unchanged).  `none` models the
`KeyError` aborts of the f-string interpolations. -/
def update_web_page (render_time : String) (state : EmailState) :
    Option EmailState :=
  (update_web_page_html state render_time).map (fun _ => state)

/-- The nodes added by `_build_graph`, plus the `END` sentinel. -/
inductive Node where
  | input_processing
  | email_generation
  | accuracy_check
  | email_simulation
  | result_output
  | web_update
  | revision
  | done
  deriving Repr, DecidableEq

/-- The external world of one run: the two `datetime.now()` reads of
`process_input`, the `datetime.now()` of `update_web_page`, the content of
the n-th `llm.invoke` in `generate_email` (`Except.error` = the call
raises), and the n-th evaluation response of `check_accuracy`, already
split into transport outcome (`Except`) and `json.loads` outcome
(`EvalJson`). -/
structure Oracle where
  now_date : String
  now_time : String
  render_time : String
  gen : Nat → Except String String
  evalResp : Nat → Except String EvalJson

/-- A point of the driver loop: current node, state, how many generation
and evaluation LLM calls happened, and the trace of executed nodes. -/
structure ExecState where
  node : Node
  state : EmailState
  genCalls : Nat
  evalCalls : Nat
  trace : List Node
  deriving Repr, DecidableEq

/-- Outcome of executing one node: the next point, or an uncaught Python
exception aborting the run. -/
inductive StepResult where
  | ok (e : ExecState)
  | aborted (msg : String)
  deriving Repr, DecidableEq

/-- Execute the current node and follow its outgoing edge, as wired in
`_build_graph`: the conditional edge out of `accuracy_check` consults
`should_send_email` with mapping send ↦ email_simulation,
revise ↦ revision; all other edges are static. -/
def step (o : Oracle) (e : ExecState) : StepResult :=
  match e.node with
  | .input_processing =>
      .ok { e with
            state := process_input o.now_date o.now_time e.state
            node := .email_generation
            trace := e.trace ++ [.input_processing] }
  | .email_generation =>
      match o.gen e.genCalls with
      | .error msg => .aborted msg
      | .ok resp =>
          .ok { e with
                state := generate_email resp e.state
                node := .accuracy_check
                genCalls := e.genCalls + 1
                trace := e.trace ++ [.email_generation] }
  | .accuracy_check =>
      match o.evalResp e.evalCalls with
      | .error msg => .aborted msg
      | .ok parsed =>
          match check_accuracy parsed e.state with
          | .error msg => .aborted msg
          | .ok s2 =>
              .ok { e with
                    state := s2
                    node := if should_send_email s2 == "send" then
                        Node.email_simulation
                      else Node.revision
                    evalCalls := e.evalCalls + 1
                    trace := e.trace ++ [.accuracy_check] }
  | .email_simulation =>
      .ok { e with
            state := simulate_email_send e.state
            node := .result_output
            trace := e.trace ++ [.email_simulation] }
  | .result_output =>
      match output_result e.state with
      | none => .aborted "KeyError: overall_score"
      | some s2 =>
          .ok { e with
                state := s2
                node := .web_update
                trace := e.trace ++ [.result_output] }
  | .web_update =>
      match update_web_page o.render_time e.state with
      | none => .aborted "KeyError"
      | some s2 =>
          .ok { e with
                state := s2
                node := .done
                trace := e.trace ++ [.web_update] }
  | .revision =>
      .ok { e with
            state := revise_email e.state
            node := .email_generation
            trace := e.trace ++ [.revision] }
  | .done => .ok e

/-- Iterate `step` a fixed number of times (stalling at `done`). -/
def stepN (o : Oracle) : Nat → ExecState → StepResult
  | 0, e => .ok e
  | n + 1, e =>
      match step o e with
      | .aborted msg => .aborted msg
      | .ok e2 => stepN o n e2

/-- Outcome of `graph.invoke`: reached `END`, aborted on an uncaught
exception, or still running when the observation fuel ran out. -/
inductive RunResult where
  | finished (e : ExecState)
  | aborted (msg : String)
  | outOfFuel (e : ExecState)
  deriving Repr, DecidableEq

/-- The driver loop of the compiled graph, with fuel bounding how many
node executions we observe. -/
def runLoop (o : Oracle) : Nat → ExecState → RunResult
  | 0, e => if e.node = .done then .finished e else .outOfFuel e
  | n + 1, e =>
      if e.node = .done then .finished e
      else
        match step o e with
        | .aborted msg => .aborted msg
        | .ok e2 => runLoop o n e2

/-- The initial `EmailState(...)` literal of `run`. -/
def init_email_state (user_input : String) : EmailState :=
  { user_input := user_input
    parsed_data := []
    generated_email := ""
    accuracy_score := {}
    send_status := ""
    result_summary := ""
    processing_time := ""
    current_date := "" }

/-- Method run of EmailGenerationSystem: invoke the graph on the initial state at
the entry point `input_processing`. -/
def run (o : Oracle) (fuel : Nat) (user_input : String) : RunResult :=
  runLoop o fuel
    { node := .input_processing
      state := init_email_state user_input
      genCalls := 0
      evalCalls := 0
      trace := [] }

/-- C1: for every evaluation record, the router returns "send" iff the
`overall_score` key holds 100 and the `recommendation` key holds APPROVE;
the result is always one of "send"/"revise", and score 100 with REVISE
still yields "revise". -/
theorem router_send_iff_perfect_approve (s : EmailState) (a : AccuracyScore) :
    (should_send_email s = "send" ↔
      s.accuracy_score.overall_score = some 100 ∧
      s.accuracy_score.recommendation = some "APPROVE") ∧
    (should_send_email s = "send" ∨ should_send_email s = "revise") ∧
    should_send_email
      { s with accuracy_score :=
          { a with overall_score := some 100,
                   recommendation := some "REVISE" } } = "revise" := by
  refine ⟨?_, ?_, rfl⟩
  · unfold should_send_email
    rcases hs : s.accuracy_score.overall_score with _ | n <;>
      rcases hr : s.accuracy_score.recommendation with _ | r <;>
        simp +decide [hs, hr]
  · by_cases h : (s.accuracy_score.overall_score.getD 0 == 100 &&
        s.accuracy_score.recommendation.getD "REVISE" == "APPROVE") = true
    · exact Or.inl (by simp [should_send_email, h])
    · exact Or.inr (by simp [should_send_email, h])

/-- Witness for C1 at a concrete state. -/
theorem router_send_iff_perfect_approve_witness :
    (should_send_email (init_email_state "t") = "send" ↔
      (init_email_state "t").accuracy_score.overall_score = some 100 ∧
      (init_email_state "t").accuracy_score.recommendation =
        some "APPROVE") ∧
    (should_send_email (init_email_state "t") = "send" ∨
      should_send_email (init_email_state "t") = "revise") ∧
    should_send_email
      { init_email_state "t" with accuracy_score :=
          { parse_failure_score with overall_score := some 100,
                                     recommendation := some "REVISE" } } =
      "revise" :=
  router_send_iff_perfect_approve (init_email_state "t") parse_failure_score

/-- An oracle whose evaluation parses to a JSON object lacking the
overall_score key. -/
def keyerror_oracle : Oracle :=
  { now_date := "2024-01-01"
    now_time := "2024-01-01 12:00:00"
    render_time := "2024-01-01 12:00:05"
    gen := fun _ => Except.ok "draft"
    evalResp := fun _ =>
      Except.ok (EvalJson.obj { recommendation := some "APPROVE" }) }

/-- Counterexample for C2 as stated: a generation response that is not
valid structured data can make the Evaluation Stage raise.  A response
parsing to a JSON object without overall_score hits the uncaught
`KeyError` of the logging f-string (only `JSONDecodeError` is caught) and
the whole run aborts; a non-object JSON value likewise hits an uncaught
`TypeError`. -/
theorem evaluation_shape_failure_aborts :
    check_accuracy (EvalJson.obj { recommendation := some "APPROVE" })
        (init_email_state "t") = Except.error "KeyError: overall_score" ∧
    check_accuracy EvalJson.nonObj (init_email_state "t") =
      Except.error "TypeError: not a dict" ∧
    run keyerror_oracle 3 "t" =
      RunResult.aborted "KeyError: overall_score" :=
  ⟨rfl, rfl, by decide⟩

/-- C2 (amended): when `json.loads` itself fails with `JSONDecodeError`,
`check_accuracy` does not raise and installs exactly the fallback record
(score 0, REVISE, the non-empty parse-failure marker, nothing else),
which the router then sends to revision; but when the response parses to
a JSON object lacking overall_score, or to a non-object value, the stage
raises an uncaught `KeyError` / `TypeError` that aborts the run. -/
theorem check_accuracy_parse_failure (s : EmailState) (a : AccuracyScore)
    (hmiss : a.overall_score = none) :
    check_accuracy EvalJson.jsonError s =
      Except.ok { s with accuracy_score := parse_failure_score } ∧
    parse_failure_score.overall_score = some 0 ∧
    parse_failure_score.recommendation = some "REVISE" ∧
    parse_failure_score.feedback = some "응답 파싱 실패" ∧
    0 < "응답 파싱 실패".length ∧
    should_send_email { s with accuracy_score := parse_failure_score } =
      "revise" ∧
    check_accuracy (EvalJson.obj a) s =
      Except.error "KeyError: overall_score" ∧
    check_accuracy EvalJson.nonObj s =
      Except.error "TypeError: not a dict" := by
  refine ⟨rfl, rfl, rfl, rfl, by decide, rfl, ?_, rfl⟩
  simp [check_accuracy, hmiss]

/-- Witness for the amended C2 at a concrete state and record. -/
theorem check_accuracy_parse_failure_witness :
    check_accuracy EvalJson.jsonError (init_email_state "t") =
      Except.ok
        { init_email_state "t" with
          accuracy_score := parse_failure_score } ∧
    parse_failure_score.overall_score = some 0 ∧
    parse_failure_score.recommendation = some "REVISE" ∧
    parse_failure_score.feedback = some "응답 파싱 실패" ∧
    0 < "응답 파싱 실패".length ∧
    should_send_email
      { init_email_state "t" with
        accuracy_score := parse_failure_score } = "revise" ∧
    check_accuracy (EvalJson.obj { recommendation := some "REVISE" })
        (init_email_state "t") = Except.error "KeyError: overall_score" ∧
    check_accuracy EvalJson.nonObj (init_email_state "t") =
      Except.error "TypeError: not a dict" :=
  check_accuracy_parse_failure (init_email_state "t")
    { recommendation := some "REVISE" } rfl

/-- C6: `revise_email` is the identity on the state, the generation prompt
inputs do not depend on the evaluation record (so feedback is not injected
into the next prompt), and the `revision` node steps unconditionally back
to `email_generation` with the state unchanged. -/
theorem revision_is_frame_identity (o : Oracle) (s : EmailState)
    (a : AccuracyScore) (e : ExecState) :
    revise_email s = s ∧
    generation_prompt_inputs { s with accuracy_score := a } =
      generation_prompt_inputs s ∧
    step o { e with node := Node.revision } =
      StepResult.ok
        { e with node := Node.email_generation, state := e.state,
                 trace := e.trace ++ [Node.revision] } :=
  ⟨rfl, rfl, rfl⟩

/-- C7: the parsing stub always returns the same fixed record, independent
of the input state, and its key set is exactly the six expected keys. -/
theorem process_input_constant_parsed_data (d t : String)
    (s s2 : EmailState) :
    (process_input d t s).parsed_data = sample_parsed_data ∧
    (process_input d t s).parsed_data = (process_input d t s2).parsed_data ∧
    (process_input d t s).parsed_data.map Prod.fst =
      ["vehicle_model", "software_version", "control_board",
       "manager_name", "distributor_name", "test_result"] :=
  ⟨rfl, rfl, rfl⟩

/-- C10: the router is total (always "send" or "revise", never an
exception), a missing `overall_score` behaves exactly like 0, a missing
`recommendation` behaves exactly like REVISE, and either key missing
forces "revise". -/
theorem router_total_on_missing_keys (s : EmailState) (a : AccuracyScore) :
    (should_send_email s = "send" ∨ should_send_email s = "revise") ∧
    should_send_email
      { s with accuracy_score := { a with overall_score := none } } =
      "revise" ∧
    should_send_email
      { s with accuracy_score := { a with recommendation := none } } =
      "revise" ∧
    should_send_email
      { s with accuracy_score := { a with overall_score := none } } =
      should_send_email
        { s with accuracy_score := { a with overall_score := some 0 } } ∧
    should_send_email
      { s with accuracy_score := { a with recommendation := none } } =
      should_send_email
        { s with accuracy_score :=
            { a with recommendation := some "REVISE" } } := by
  refine ⟨?_, rfl, ?_, rfl, rfl⟩
  · by_cases h : (s.accuracy_score.overall_score.getD 0 == 100 &&
        s.accuracy_score.recommendation.getD "REVISE" == "APPROVE") = true
    · exact Or.inl (by simp [should_send_email, h])
    · exact Or.inr (by simp [should_send_email, h])
  · unfold should_send_email
    rcases ho : a.overall_score with _ | n <;> simp +decide [ho]

theorem runLoop_done (o : Oracle) (fuel : Nat) (e : ExecState)
    (h : e.node = Node.done) :
    runLoop o fuel e = RunResult.finished e := by
  cases fuel <;> simp [runLoop, h]

theorem runLoop_step (o : Oracle) (fuel : Nat) (e e2 : ExecState)
    (hne : e.node ≠ Node.done) (h : step o e = StepResult.ok e2) :
    runLoop o (fuel + 1) e = runLoop o fuel e2 := by
  simp [runLoop, hne, h]

theorem runLoop_abort (o : Oracle) (fuel : Nat) (e : ExecState)
    (msg : String) (hne : e.node ≠ Node.done)
    (h : step o e = StepResult.aborted msg) :
    runLoop o (fuel + 1) e = RunResult.aborted msg := by
  simp [runLoop, hne, h]

theorem check_accuracy_obj_ok (a : AccuracyScore) (s : EmailState)
    (n : Int) (h : a.overall_score = some n) :
    check_accuracy (EvalJson.obj a) s =
      Except.ok { s with accuracy_score := a } := by
  simp [check_accuracy, h]

theorem check_accuracy_obj_keyerror (a : AccuracyScore) (s : EmailState)
    (h : a.overall_score = none) :
    check_accuracy (EvalJson.obj a) s =
      Except.error "KeyError: overall_score" := by
  simp [check_accuracy, h]

theorem check_accuracy_frame (p : EvalJson) (s s2 : EmailState)
    (h : check_accuracy p s = Except.ok s2) :
    s2.user_input = s.user_input ∧
    s2.processing_time = s.processing_time := by
  rcases p with _ | a | _
  · simp only [check_accuracy, Except.ok.injEq] at h
    rw [← h]
    exact ⟨rfl, rfl⟩
  · rcases ho : a.overall_score with _ | n
    · rw [check_accuracy_obj_keyerror a s ho] at h
      exact absurd h (by simp)
    · rw [check_accuracy_obj_ok a s n ho, Except.ok.injEq] at h
      rw [← h]
      exact ⟨rfl, rfl⟩
  · exact absurd h (by simp [check_accuracy])

theorem dict_get_sample_vm :
    dict_get sample_parsed_data "vehicle_model" = some "추출된차종" := rfl

theorem dict_get_sample_sv :
    dict_get sample_parsed_data "software_version" = some "추출된버전" :=
  rfl

theorem dict_get_sample_cb :
    dict_get sample_parsed_data "control_board" = some "추출된제어보드" :=
  rfl

theorem output_result_some (s : EmailState) (n : Int)
    (h : s.accuracy_score.overall_score = some n) :
    output_result s =
      some { s with result_summary := result_summary_text n s } := by
  unfold output_result
  rw [h]

theorem update_web_page_total (r : String) (s : EmailState) (n : Int)
    (h : s.accuracy_score.overall_score = some n)
    (hp : s.parsed_data = sample_parsed_data) :
    update_web_page r s = some s := by
  unfold update_web_page update_web_page_html html_before_timestamp
  rw [h, hp, dict_get_sample_vm, dict_get_sample_sv, dict_get_sample_cb]
  rfl

theorem output_result_frame (s s2 : EmailState)
    (h : output_result s = some s2) :
    s2.user_input = s.user_input ∧
    s2.processing_time = s.processing_time := by
  unfold output_result at h
  rcases hs : s.accuracy_score.overall_score with _ | n <;> rw [hs] at h
  · exact absurd h (by simp)
  · rw [Option.some_inj] at h
    rw [← h]
    exact ⟨rfl, rfl⟩

theorem update_web_page_frame (r : String) (s s2 : EmailState)
    (h : update_web_page r s = some s2) : s2 = s := by
  unfold update_web_page at h
  rcases hb : update_web_page_html s r with _ | b <;> rw [hb] at h
  · exact absurd h (by simp)
  · simpa using h.symm

theorem step_preserves_inputs (o : Oracle) (e e2 : ExecState)
    (hnode : e.node ≠ Node.input_processing)
    (h : step o e = StepResult.ok e2) :
    e2.state.user_input = e.state.user_input ∧
    e2.state.processing_time = e.state.processing_time ∧
    e2.node ≠ Node.input_processing := by
  rcases e with ⟨n, s, gc, ec, tr⟩
  cases n
  case input_processing => exact absurd rfl hnode
  case email_generation =>
    rcases hg : o.gen gc with msg | resp <;> rw [step, hg] at h
    · exact absurd h (by simp)
    · rw [StepResult.ok.injEq] at h
      rw [← h]
      exact ⟨rfl, rfl, by simp⟩
  case accuracy_check =>
    rcases he : o.evalResp ec with msg | parsed <;>
      simp only [step, he] at h
    · exact absurd h (by simp)
    · rcases hc : check_accuracy parsed s with msg2 | s3 <;>
        simp only [hc] at h
      · exact absurd h (by simp)
      · rw [StepResult.ok.injEq] at h
        rw [← h]
        obtain ⟨h1, h2⟩ := check_accuracy_frame parsed s s3 hc
        refine ⟨h1, h2, ?_⟩
        by_cases hs : (should_send_email s3 == "send") = true <;> simp [hs]
  case email_simulation =>
    rw [step, StepResult.ok.injEq] at h
    rw [← h]
    exact ⟨rfl, rfl, by simp⟩
  case result_output =>
    rcases ho : output_result s with _ | s3 <;> rw [step, ho] at h
    · exact absurd h (by simp)
    · rw [StepResult.ok.injEq] at h
      rw [← h]
      obtain ⟨h1, h2⟩ := output_result_frame s s3 ho
      exact ⟨h1, h2, by simp⟩
  case web_update =>
    rcases hw : update_web_page o.render_time s with _ | s3 <;>
      rw [step, hw] at h
    · exact absurd h (by simp)
    · rw [StepResult.ok.injEq] at h
      rw [← h]
      have h3 := update_web_page_frame o.render_time s s3 hw
      rw [h3]
      exact ⟨rfl, rfl, by simp⟩
  case revision =>
    rw [step, StepResult.ok.injEq] at h
    rw [← h]
    exact ⟨rfl, rfl, by simp⟩
  case done =>
    rw [step, StepResult.ok.injEq] at h
    rw [← h]
    exact ⟨rfl, rfl, hnode⟩

/-- C5: `user_input` and `processing_time` are untouched by every node
after `input_processing`: any number of steps of the driver from a
non-entry node preserves both fields, and in particular none of the three
cycle stages (`generate_email`, `check_accuracy`, `revise_email`) writes
either field. -/
theorem cycle_preserves_raw_input_and_timestamp (o : Oracle) (n : Nat)
    (e e2 : ExecState) (r : String) (p : EvalJson)
    (s : EmailState)
    (hnode : e.node ≠ Node.input_processing)
    (h : stepN o n e = StepResult.ok e2) :
    e2.state.user_input = e.state.user_input ∧
    e2.state.processing_time = e.state.processing_time ∧
    (generate_email r s).user_input = s.user_input ∧
    (generate_email r s).processing_time = s.processing_time ∧
    (check_accuracy p s).map EmailState.user_input =
      (check_accuracy p s).map (fun _ => s.user_input) ∧
    (check_accuracy p s).map EmailState.processing_time =
      (check_accuracy p s).map (fun _ => s.processing_time) ∧
    revise_email s = s := by
  have main : ∀ (m : Nat) (e1 : ExecState),
      e1.node ≠ Node.input_processing →
      ∀ e3, stepN o m e1 = StepResult.ok e3 →
      e3.state.user_input = e1.state.user_input ∧
      e3.state.processing_time = e1.state.processing_time := by
    intro m
    induction m with
    | zero =>
        intro e1 hn e3 hstep
        simp only [stepN, StepResult.ok.injEq] at hstep
        rw [← hstep]
        exact ⟨rfl, rfl⟩
    | succ k ih =>
        intro e1 hn e3 hstep
        simp only [stepN] at hstep
        rcases hs : step o e1 with e4 | msg <;> rw [hs] at hstep
        · obtain ⟨h1, h2, h3⟩ := step_preserves_inputs o e1 e4 hn hs
          obtain ⟨h4, h5⟩ := ih e4 h3 e3 hstep
          exact ⟨h4.trans h1, h5.trans h2⟩
        · exact absurd hstep (by simp)
  obtain ⟨h1, h2⟩ := main n e hnode e2 h
  refine ⟨h1, h2, rfl, rfl, ?_, ?_, rfl⟩
  · rcases hc : check_accuracy p s with msg | s2
    · rfl
    · obtain ⟨h4, h5⟩ := check_accuracy_frame p s s2 hc
      simp [Except.map, h4]
  · rcases hc : check_accuracy p s with msg | s2
    · rfl
    · obtain ⟨h4, h5⟩ := check_accuracy_frame p s s2 hc
      simp [Except.map, h5]

/-- The always-80/REVISE evaluation used by the non-convergence claims. -/
def low_score : AccuracyScore :=
  { overall_score := some 80
    recommendation := some "REVISE" }

/-- An oracle whose generation always succeeds and whose evaluation always
parses to `low_score`. -/
def loop_oracle : Oracle :=
  { now_date := "2024-01-01"
    now_time := "2024-01-01 12:00:00"
    render_time := "2024-01-01 12:00:05"
    gen := fun _ => Except.ok "draft"
    evalResp := fun _ => Except.ok (EvalJson.obj low_score) }

/-- An execution point just after input processing, about to generate. -/
def loop_exec : ExecState :=
  { node := Node.email_generation
    state :=
      { user_input := "소나타, v2.1.3, ECU-2024"
        parsed_data := sample_parsed_data
        generated_email := ""
        accuracy_score := {}
        send_status := ""
        result_summary := ""
        processing_time := "2024-01-01 12:00:00"
        current_date := "2024-01-01" }
    genCalls := 0
    evalCalls := 0
    trace := [Node.input_processing] }

/-- The point `loop_exec` after one full Generation → Evaluation → Revision cycle. -/
def loop_exec3 : ExecState :=
  { node := Node.email_generation
    state :=
      { loop_exec.state with
        generated_email := "draft"
        accuracy_score := low_score }
    genCalls := 1
    evalCalls := 1
    trace := [Node.input_processing, Node.email_generation,
              Node.accuracy_check, Node.revision] }

/-- Witness for C5: one concrete revise-loop iteration. -/
theorem cycle_preserves_raw_input_and_timestamp_witness :
    loop_exec3.state.user_input = loop_exec.state.user_input ∧
    loop_exec3.state.processing_time = loop_exec.state.processing_time ∧
    (generate_email "draft" loop_exec.state).user_input =
      loop_exec.state.user_input ∧
    (generate_email "draft" loop_exec.state).processing_time =
      loop_exec.state.processing_time ∧
    (check_accuracy (EvalJson.obj low_score) loop_exec.state).map
        EmailState.user_input =
      (check_accuracy (EvalJson.obj low_score) loop_exec.state).map
        (fun _ => loop_exec.state.user_input) ∧
    (check_accuracy (EvalJson.obj low_score) loop_exec.state).map
        EmailState.processing_time =
      (check_accuracy (EvalJson.obj low_score) loop_exec.state).map
        (fun _ => loop_exec.state.processing_time) ∧
    revise_email loop_exec.state = loop_exec.state :=
  cycle_preserves_raw_input_and_timestamp loop_oracle 3 loop_exec
    loop_exec3 "draft" (EvalJson.obj low_score) loop_exec.state (by decide)
    (by decide)

/-- The nodes of the Generation → Evaluation → Revision cycle (plus the
entry node). -/
def loop_nodes (n : Node) : Prop :=
  n = Node.input_processing ∨ n = Node.email_generation ∨
  n = Node.accuracy_check ∨ n = Node.revision

theorem router_revise_of_80 (a : AccuracyScore) (s : EmailState)
    (h80 : a.overall_score = some 80) :
    should_send_email { s with accuracy_score := a } = "revise" := by
  simp +decide [should_send_email, h80]

theorem runLoop_stuck (o : Oracle) (a : AccuracyScore) (g : Nat → String)
    (hg : ∀ n, o.gen n = Except.ok (g n))
    (he : ∀ n, o.evalResp n = Except.ok (EvalJson.obj a))
    (h80 : a.overall_score = some 80) :
    ∀ (fuel : Nat) (e : ExecState), loop_nodes e.node →
      ∃ e2, runLoop o fuel e = RunResult.outOfFuel e2 ∧ loop_nodes e2.node := by
  intro fuel
  induction fuel with
  | zero =>
      intro e hmem
      have hne : e.node ≠ Node.done := by
        rcases hmem with h | h | h | h <;> rw [h] <;> simp
      exact ⟨e, by simp [runLoop, hne], hmem⟩
  | succ k ih =>
      intro e hmem
      rcases e with ⟨n, s, gc, ec, tr⟩
      rcases hmem with h | h | h | h <;> simp only at h <;> subst h
      · rw [runLoop_step o k
          ⟨Node.input_processing, s, gc, ec, tr⟩
          ⟨Node.email_generation, process_input o.now_date o.now_time s,
            gc, ec, tr ++ [Node.input_processing]⟩ (by simp) rfl]
        exact ih _ (Or.inr (Or.inl rfl))
      · rw [runLoop_step o k _
          ⟨Node.accuracy_check, generate_email (g gc) s, gc + 1, ec,
            tr ++ [Node.email_generation]⟩ (by simp)
          (by simp [step, hg gc])]
        exact ih _ (Or.inr (Or.inr (Or.inl rfl)))
      · rw [runLoop_step o k _
          ⟨Node.revision, { s with accuracy_score := a }, gc, ec + 1,
            tr ++ [Node.accuracy_check]⟩ (by simp)
          (by simp +decide [step, he ec, check_accuracy_obj_ok a s 80 h80,
            router_revise_of_80 a s h80])]
        exact ih _ (Or.inr (Or.inr (Or.inr rfl)))
      · rw [runLoop_step o k
          ⟨Node.revision, s, gc, ec, tr⟩
          ⟨Node.email_generation, s, gc, ec, tr ++ [Node.revision]⟩
          (by simp) rfl]
        exact ih _ (Or.inr (Or.inl rfl))

/-- C4: with an evaluation that always parses to score 80 / REVISE (and a
generation that always succeeds), the driver never reaches `END` and never
aborts: for every fuel bound it is still inside the
Generation → Evaluation → Revision cycle when the fuel runs out. -/
theorem unbounded_revise_loop (o : Oracle) (a : AccuracyScore)
    (g : Nat → String)
    (hg : ∀ n, o.gen n = Except.ok (g n))
    (he : ∀ n, o.evalResp n = Except.ok (EvalJson.obj a))
    (h80 : a.overall_score = some 80)
    (_hrec : a.recommendation = some "REVISE")
    (fuel : Nat) (u : String) :
    ∃ e2, run o fuel u = RunResult.outOfFuel e2 ∧ loop_nodes e2.node := by
  unfold run
  exact runLoop_stuck o a g hg he h80 fuel _ (Or.inl rfl)

/-- Witness for C4 at a concrete oracle and fuel bound. -/
theorem unbounded_revise_loop_witness :
    ∃ e2, run loop_oracle 20 "소나타, v2.1.3, ECU-2024" =
        RunResult.outOfFuel e2 ∧ loop_nodes e2.node :=
  unbounded_revise_loop loop_oracle low_score (fun _ => "draft")
    (fun _ => rfl) (fun _ => rfl) rfl rfl 20 "소나타, v2.1.3, ECU-2024"

/-- C8: if the generation LLM call raises, `generate_email` has no
try/except, so the error propagates and the whole run aborts with it; the
generation call is not retried. -/
theorem generation_failure_aborts_run (o : Oracle) (k : Nat) (u msg : String)
    (herr : o.gen 0 = Except.error msg) :
    run o (k + 2) u = RunResult.aborted msg := by
  show runLoop o (k + 1 + 1) _ = _
  rw [runLoop_step o (k + 1)
      ⟨Node.input_processing, init_email_state u, 0, 0, []⟩
      ⟨Node.email_generation,
        process_input o.now_date o.now_time (init_email_state u), 0, 0,
        [Node.input_processing]⟩ (by simp) rfl]
  exact runLoop_abort o k _ msg (by simp) (by simp [step, herr])

/-- An oracle whose generation call always fails. -/
def failing_oracle : Oracle :=
  { now_date := "2024-01-01"
    now_time := "2024-01-01 12:00:00"
    render_time := "2024-01-01 12:00:05"
    gen := fun _ => Except.error "generation unavailable"
    evalResp := fun _ => Except.ok EvalJson.jsonError }

/-- Witness for C8 at a concrete oracle. -/
theorem generation_failure_aborts_run_witness :
    run failing_oracle 2 "t" = RunResult.aborted "generation unavailable" :=
  generation_failure_aborts_run failing_oracle 0 "t"
    "generation unavailable" rfl

/-- C9: two Publish invocations on the same state render HTML documents
that are byte-identical except for the embedded render timestamp: both are
the same prefix and suffix around their respective timestamps. -/
theorem publish_differs_only_in_timestamp (s : EmailState)
    (t1 t2 c1 c2 : String)
    (h1 : update_web_page_html s t1 = some c1)
    (h2 : update_web_page_html s t2 = some c2) :
    ∃ p q, c1 = p ++ t1 ++ q ∧ c2 = p ++ t2 ++ q := by
  unfold update_web_page_html at h1 h2
  rcases hb : html_before_timestamp s with _ | b <;> rw [hb] at h1 h2
  · exact absurd h1 (by simp)
  · simp only [Option.map_some', Option.some_inj] at h1 h2
    exact ⟨b, html_after_timestamp, h1.symm, h2.symm⟩

/-- The evaluation of a perfect first pass. -/
def perfect_score : AccuracyScore :=
  { overall_score := some 100
    recommendation := some "APPROVE" }

/-- A final workflow state as produced by a perfect one-pass run. -/
def published_state : EmailState :=
  { user_input := "소나타, v2.1.3, ECU-2024"
    parsed_data := sample_parsed_data
    generated_email := "draft"
    accuracy_score := perfect_score
    send_status := "전송 완료 (시뮬레이션)"
    result_summary := ""
    processing_time := "2024-01-01 12:00:00"
    current_date := "2024-01-01" }

/-- The HTML of `published_state` up to the render timestamp. -/
def published_html_body : String :=
  (html_before_timestamp published_state).getD ""

/-- Witness for C9 at a concrete final state and two timestamps. -/
theorem publish_differs_only_in_timestamp_witness :
    ∃ p q,
      published_html_body ++ "2024-01-01 12:00:05" ++ html_after_timestamp =
        p ++ "2024-01-01 12:00:05" ++ q ∧
      published_html_body ++ "2024-01-01 12:00:09" ++ html_after_timestamp =
        p ++ "2024-01-01 12:00:09" ++ q :=
  publish_differs_only_in_timestamp published_state
    "2024-01-01 12:00:05" "2024-01-01 12:00:09" _ _ rfl rfl

/-- State after `input_processing` on a fresh run. -/
def c3_s1 (o : Oracle) (u : String) : EmailState :=
  process_input o.now_date o.now_time (init_email_state u)

/-- State after the (single) generation call answered `g`. -/
def c3_s2 (o : Oracle) (u g : String) : EmailState :=
  generate_email g (c3_s1 o u)

/-- State after the (single) evaluation call parsed to the object `a`
(whose overall_score key is present, so the stage succeeds). -/
def c3_s3 (o : Oracle) (u g : String) (a : AccuracyScore) : EmailState :=
  { c3_s2 o u g with accuracy_score := a }

/-- State after `email_simulation`. -/
def c3_s4 (o : Oracle) (u g : String) (a : AccuracyScore) : EmailState :=
  simulate_email_send (c3_s3 o u g a)

/-- State after `result_output` (perfect score). -/
def c3_s5 (o : Oracle) (u g : String) (a : AccuracyScore) : EmailState :=
  { c3_s4 o u g a with
    result_summary := result_summary_text 100 (c3_s4 o u g a) }

/-- Execution points of the perfect one-pass run. -/
def c3_e0 (u : String) : ExecState :=
  ⟨Node.input_processing, init_email_state u, 0, 0, []⟩

def c3_e1 (o : Oracle) (u : String) : ExecState :=
  ⟨Node.email_generation, c3_s1 o u, 0, 0, [Node.input_processing]⟩

def c3_e2 (o : Oracle) (u g : String) : ExecState :=
  ⟨Node.accuracy_check, c3_s2 o u g, 1, 0,
    [Node.input_processing, Node.email_generation]⟩

def c3_e3 (o : Oracle) (u g : String) (a : AccuracyScore) : ExecState :=
  ⟨Node.email_simulation, c3_s3 o u g a, 1, 1,
    [Node.input_processing, Node.email_generation, Node.accuracy_check]⟩

def c3_e4 (o : Oracle) (u g : String) (a : AccuracyScore) : ExecState :=
  ⟨Node.result_output, c3_s4 o u g a, 1, 1,
    [Node.input_processing, Node.email_generation, Node.accuracy_check,
     Node.email_simulation]⟩

def c3_e5 (o : Oracle) (u g : String) (a : AccuracyScore) : ExecState :=
  ⟨Node.web_update, c3_s5 o u g a, 1, 1,
    [Node.input_processing, Node.email_generation, Node.accuracy_check,
     Node.email_simulation, Node.result_output]⟩

def c3_e6 (o : Oracle) (u g : String) (a : AccuracyScore) : ExecState :=
  ⟨Node.done, c3_s5 o u g a, 1, 1,
    [Node.input_processing, Node.email_generation, Node.accuracy_check,
     Node.email_simulation, Node.result_output, Node.web_update]⟩

/-- C3: if the first evaluation parses to score 100 / APPROVE, the run
finishes (for any extra fuel), visits exactly input_processing,
email_generation, accuracy_check, email_simulation, result_output,
web_update in that order, makes exactly one generation and one evaluation
call, never visits revision, and ends with the simulated-send marker. -/
theorem first_pass_perfect_run (o : Oracle) (k : Nat) (u g : String)
    (a : AccuracyScore)
    (hg : o.gen 0 = Except.ok g)
    (he : o.evalResp 0 = Except.ok (EvalJson.obj a))
    (h100 : a.overall_score = some 100)
    (hap : a.recommendation = some "APPROVE") :
    ∃ e, run o (k + 6) u = RunResult.finished e ∧
      e.trace = [Node.input_processing, Node.email_generation,
        Node.accuracy_check, Node.email_simulation, Node.result_output,
        Node.web_update] ∧
      e.genCalls = 1 ∧ e.evalCalls = 1 ∧
      Node.revision ∉ e.trace ∧
      e.state.send_status = "전송 완료 (시뮬레이션)" := by
  have hacc : check_accuracy (EvalJson.obj a) (c3_s2 o u g) =
      Except.ok (c3_s3 o u g a) :=
    check_accuracy_obj_ok a (c3_s2 o u g) 100 h100
  have hsend : should_send_email (c3_s3 o u g a) = "send" := by
    simp +decide [c3_s3, should_send_email, h100, hap]
  have hsc4 : (c3_s4 o u g a).accuracy_score.overall_score = some 100 := by
    simp [c3_s4, c3_s3, simulate_email_send, check_accuracy, h100]
  have hout : output_result (c3_s4 o u g a) = some (c3_s5 o u g a) :=
    output_result_some (c3_s4 o u g a) 100 hsc4
  have hsc5 : (c3_s5 o u g a).accuracy_score.overall_score = some 100 := by
    simp [c3_s5, c3_s4, c3_s3, simulate_email_send, check_accuracy, h100]
  have hpd5 : (c3_s5 o u g a).parsed_data = sample_parsed_data := by
    simp [c3_s5, c3_s4, c3_s3, c3_s2, c3_s1, simulate_email_send,
      check_accuracy, generate_email, process_input]
  have hweb : update_web_page o.render_time (c3_s5 o u g a) =
      some (c3_s5 o u g a) :=
    update_web_page_total o.render_time (c3_s5 o u g a) 100 hsc5 hpd5
  have st1 : step o (c3_e1 o u) = StepResult.ok (c3_e2 o u g) := by
    simp [step, c3_e1, c3_e2, c3_s2, hg]
  have st2 : step o (c3_e2 o u g) = StepResult.ok (c3_e3 o u g a) := by
    simp +decide [step, c3_e2, c3_e3, he, hacc, hsend]
  have st4 : step o (c3_e4 o u g a) = StepResult.ok (c3_e5 o u g a) := by
    simp [step, c3_e4, c3_e5, hout]
  have st5 : step o (c3_e5 o u g a) = StepResult.ok (c3_e6 o u g a) := by
    simp [step, c3_e5, c3_e6, hweb]
  refine ⟨c3_e6 o u g a, ?_, rfl, rfl, rfl, by simp [c3_e6], rfl⟩
  show runLoop o (k + 5 + 1) (c3_e0 u) = _
  rw [runLoop_step o (k + 5) (c3_e0 u) (c3_e1 o u) (by simp [c3_e0]) rfl]
  rw [show k + 5 = k + 4 + 1 from rfl,
      runLoop_step o (k + 4) (c3_e1 o u) (c3_e2 o u g)
        (by simp [c3_e1]) st1]
  rw [show k + 4 = k + 3 + 1 from rfl,
      runLoop_step o (k + 3) (c3_e2 o u g) (c3_e3 o u g a)
        (by simp [c3_e2]) st2]
  rw [show k + 3 = k + 2 + 1 from rfl,
      runLoop_step o (k + 2) (c3_e3 o u g a) (c3_e4 o u g a)
        (by simp [c3_e3]) rfl]
  rw [show k + 2 = k + 1 + 1 from rfl,
      runLoop_step o (k + 1) (c3_e4 o u g a) (c3_e5 o u g a)
        (by simp [c3_e4]) st4]
  rw [show k + 1 = k + 0 + 1 from rfl,
      runLoop_step o (k + 0) (c3_e5 o u g a) (c3_e6 o u g a)
        (by simp [c3_e5]) st5]
  exact runLoop_done o (k + 0) (c3_e6 o u g a) rfl

/-- An oracle that grades the first draft perfect. -/
def send_oracle : Oracle :=
  { now_date := "2024-01-01"
    now_time := "2024-01-01 12:00:00"
    render_time := "2024-01-01 12:00:05"
    gen := fun _ => Except.ok "draft"
    evalResp := fun _ => Except.ok (EvalJson.obj perfect_score) }

/-- Witness for C3 at a concrete oracle and fuel. -/
theorem first_pass_perfect_run_witness :
    ∃ e, run send_oracle 6 "소나타, v2.1.3, ECU-2024" =
        RunResult.finished e ∧
      e.trace = [Node.input_processing, Node.email_generation,
        Node.accuracy_check, Node.email_simulation, Node.result_output,
        Node.web_update] ∧
      e.genCalls = 1 ∧ e.evalCalls = 1 ∧
      Node.revision ∉ e.trace ∧
      e.state.send_status = "전송 완료 (시뮬레이션)" :=
  first_pass_perfect_run send_oracle 0 "소나타, v2.1.3, ECU-2024" "draft"
    perfect_score rfl rfl rfl rfl
